import Mathlib

set_option maxRecDepth 100000

/-!
Verification of the keyword-to-content-brief analysis pipeline of the
seo-content-generator repository (src/app/seo_engine.py, src/app/free_ai_service.py,
src/app/utils.py).

Python strings are modelled as lists of Unicode code points (`PyStr := List Nat`).
The string methods used by the code (`.lower()`, `.title()`, `.split()`, `.strip()`,
substring `in`) are embedded with ASCII casing and whitespace rules, which coincide
with Python on the keyword alphabet accepted by `validate_keyword`
(ASCII alphanumerics, whitespace, hyphen, underscore).

Calls to the global `random` module are modelled by an explicit oracle parameter
(`RandOracle`): each field stands for the value produced by one `random.*` call site,
so a run of the Python code corresponds to the embedded function applied at some
oracle value, and determinism questions become questions about oracle dependence.
-/

/-- A Python string as its list of code points. -/
abbrev PyStr := List Nat

/-- Code points of a Lean string literal, used to embed Python string literals. -/
def str (s : String) : PyStr := s.data.map Char.toNat

/-- ASCII model of Python lowercasing of one code point. -/
def asciiLower (n : Nat) : Nat := if 65 ≤ n ∧ n ≤ 90 then n + 32 else n

/-- ASCII model of Python uppercasing of one code point. -/
def asciiUpper (n : Nat) : Nat := if 97 ≤ n ∧ n ≤ 122 then n - 32 else n

/-- ASCII letter test (the "cased" code points of the keyword alphabet). -/
def isAlphaNat (n : Nat) : Bool := (65 ≤ n && n ≤ 90) || (97 ≤ n && n ≤ 122)

/-- Embedding of `str.lower()` (ASCII model). -/
def pyLowerS (l : PyStr) : PyStr := l.map asciiLower

/-- Helper for `str.title()`: the Boolean carries whether the previous
code point was a cased letter. -/
def pyTitleAux : Bool → PyStr → PyStr
  | _, [] => []
  | prev, c :: cs =>
    (if isAlphaNat c then (if prev then asciiLower c else asciiUpper c) else c) ::
      pyTitleAux (isAlphaNat c) cs

/-- Embedding of `str.title()` (ASCII model): a letter is uppercased when the preceding
code point is not a cased letter, lowercased otherwise. -/
def pyTitle (l : PyStr) : PyStr := pyTitleAux false l

/-- ASCII whitespace set: the characters `str.split()` / `str.strip()` and the
regex class `\s` treat as whitespace (space, tab, newline, CR, VT, FF). -/
def pyIsSpace (n : Nat) : Bool := n = 32 || n = 9 || n = 10 || n = 13 || n = 11 || n = 12

/-- Embedding of `str.split()` with no argument: split on whitespace runs, dropping empties. -/
def pySplit (l : PyStr) : List PyStr :=
  (List.splitOnP pyIsSpace l).filter (fun w => w ≠ [])

/-- Embedding of `str.strip()` with no argument (ASCII whitespace model). -/
def pyStrip (l : PyStr) : PyStr :=
  ((l.dropWhile pyIsSpace).reverse.dropWhile pyIsSpace).reverse

/-- The Python substring test `needle in hay`. -/
def pyContains (needle hay : PyStr) : Bool :=
  (List.range (hay.length + 1)).any fun i => needle.isPrefixOf (hay.drop i)

/-- Embedding of `str.replace(" ", "-")`, used for the mock result URLs. -/
def pyReplaceSpaceDash (l : PyStr) : PyStr := l.map fun c => if c = 32 then 45 else c

/-- Code points of the decimal rendering of a natural number
(the embedding of Python `str(n)` / f-string interpolation of an int). -/
def natStr (n : Nat) : PyStr := str (toString n)

/-- Embedding of `validate_keyword` from src/app/utils.py: non-empty, stripped length in [2,100],
and every character in `[a-zA-Z0-9\s\-_]` (ASCII model of the regex). -/
def validateKeyword (k : PyStr) : Bool :=
  if k = [] || (pyStrip k).length < 2 then false
  else if (pyStrip k).length > 100 then false
  else if !(k.all fun c =>
      (48 ≤ c && c ≤ 57) || isAlphaNat c || pyIsSpace c || c = 45 || c = 95) then false
  else true

/-- A Python dict value appearing in the SERP-result records: a string or an int. -/
inductive PyVal where
  | pstr (s : PyStr)
  | pint (n : Nat)
deriving DecidableEq

/-- A Python string-keyed dict, as an insertion-ordered association list. -/
abbrev PyDict := List (PyStr × PyVal)

/-- Dict key access returning `none` for a missing key. -/
def pyLookup (key : PyStr) (d : PyDict) : Option PyVal :=
  match d with
  | [] => none
  | (k, v) :: rest => if key = k then some v else pyLookup key rest

/-- Embedding of `SEOEngine._get_mock_serp_results`: the record built for 0-based index `i`
(Python's loop variable); `position` is `i + 1`. -/
def mockSerpRecord (k : PyStr) (i : Nat) : PyDict :=
  [(str "title", .pstr (pyTitle k ++ (str " - Complete Guide " ++ natStr (i + 1)))),
   (str "url", .pstr (str "https://example" ++ natStr (i + 1) ++ str ".com/" ++
      pyReplaceSpaceDash k)),
   (str "snippet", .pstr (str "Learn everything about " ++ (k ++
      str " with our comprehensive guide. Expert tips, strategies, and best practices for success."))),
   (str "position", .pint (i + 1)),
   (str "domain", .pstr (str "example" ++ natStr (i + 1) ++ str ".com"))]

/-- Embedding of `SEOEngine._get_mock_serp_results`: a loop `for i in range(5)` appending
`mockSerpRecord k i`. No call to `random`, no count parameter. -/
def mockSerpResults (k : PyStr) : List PyDict :=
  (List.range 5).map (mockSerpRecord k)

/-- One entity dict produced by `SEOEngine._extract_entities`. `relevance`
holds the Python float in hundredths (the code only uses the exact decimals
1.0, 0.8, 0.9, i.e. 100, 80, 90), keeping equality kernel-computable. -/
structure Entity where
  text : PyStr
  type : PyStr
  relevance : Int
deriving DecidableEq

/-- The fixed vocabulary `seo_terms` of `_extract_entities`. -/
def seoTerms : List PyStr :=
  [str "SEO", str "marketing", str "strategy", str "optimization", str "content"]

/-- Embedding of `SEOEngine._extract_entities`: the whole keyword as KEYWORD, each
whitespace-separated token longer than 3 as TERM, each vocabulary term occurring
case-insensitively in the keyword as CONCEPT, appended in that order.
(The `serp_results` parameter of the Python method is unused and omitted here.) -/
def extractEntities (k : PyStr) : List Entity :=
  [{ text := k, type := str "KEYWORD", relevance := 100 }] ++
  ((pySplit k).filter (fun w => w.length > 3)).map
    (fun w => { text := w, type := str "TERM", relevance := 80 }) ++
  (seoTerms.filter (fun t => pyContains (pyLowerS t) (pyLowerS k))).map
    (fun t => { text := t, type := str "CONCEPT", relevance := 90 })

/-- One scored-keyword dict produced by `SEOEngine._generate_tfidf_keywords`.
`score` holds the Python float in hundredths: the code computes
`round(1.0 - i * 0.1, 2)`, exactly the two-decimal value `(100 - 10*i)/100`. -/
structure ScoredKeyword where
  term : PyStr
  score : Int
  frequency : Nat
deriving DecidableEq

/-- The `related_terms` list of `_generate_tfidf_keywords`. -/
def relatedTerms (k : PyStr) : List PyStr :=
  [k,
   k ++ str " guide",
   k ++ str " tips",
   k ++ str " strategies",
   k ++ str " best practices",
   k ++ str " examples",
   k ++ str " tools",
   k ++ str " case study"]

/-- The `for i, term in enumerate(related_terms)` loop of
`_generate_tfidf_keywords`; `f i` is the value of the `random.randint(5, 50)`
call of iteration `i`. Python computes `round(1.0 - i * 0.1, 2)`; in
hundredths that is the integer `100 - 10 * i`. -/
def tfidfLoop (f : Nat → Nat) : Nat → List PyStr → List ScoredKeyword
  | _, [] => []
  | i, t :: rest =>
    { term := t, score := 100 - 10 * (i : Int), frequency := f i } :: tfidfLoop f (i + 1) rest

/-- Embedding of `SEOEngine._generate_tfidf_keywords` (its unused `serp_results` parameter omitted). -/
def generateTfidfKeywords (k : PyStr) (f : Nat → Nat) : List ScoredKeyword :=
  tfidfLoop f 0 (relatedTerms k)

/-- The three `content_templates["seo"]` strings, as functions of the keyword
substituted by `.format(keyword=keyword)`. -/
def contentTemplatesSeo : List (PyStr → PyStr) :=
  [fun k => str "Understanding " ++ k ++
      str " is crucial for digital marketing success. This comprehensive guide covers everything you need to know about " ++
      k ++ str " and how to implement effective strategies.",
   fun k => str "Mastering " ++ k ++
      str " requires a deep understanding of search engine algorithms and user behavior. Learn the proven techniques that top marketers use.",
   fun k => str "The world of " ++ k ++
      str " is constantly evolving. Stay ahead of the curve with these expert insights and actionable tips."]

/-- The three `content_templates["marketing"]` strings. -/
def contentTemplatesMarketing : List (PyStr → PyStr) :=
  [fun k => str "Effective " ++ k ++
      str " strategies can transform your business growth. Discover the key principles and implementation methods.",
   fun k => str "In today\x27s competitive market, understanding " ++ k ++
      str " is essential. This guide provides practical approaches for success.",
   fun k => str "Successful " ++ k ++
      str " campaigns require careful planning and execution. Learn from industry experts and case studies."]

/-- The three `content_templates["technology"]` strings. -/
def contentTemplatesTechnology : List (PyStr → PyStr) :=
  [fun k => str "The technology behind " ++ k ++
      str " is advancing rapidly. Explore the latest developments and their practical applications.",
   fun k => str "Understanding " ++ k ++
      str " technology is key to staying competitive. This comprehensive overview covers all essential aspects.",
   fun k => str "Modern " ++ k ++
      str " solutions offer unprecedented opportunities. Learn how to leverage these technologies effectively."]

/-- Embedding of `SEOEngine._categorize_keyword`. -/
def categorizeKeyword (k : PyStr) : PyStr :=
  let kl := pyLowerS k
  if [str "seo", str "search", str "optimization", str "ranking"].any
      (fun t => pyContains t kl) then str "seo"
  else if [str "marketing", str "campaign", str "strategy", str "brand"].any
      (fun t => pyContains t kl) then str "marketing"
  else if [str "tech", str "software", str "app", str "digital", str "ai"].any
      (fun t => pyContains t kl) then str "technology"
  else str "seo"

/-- Embedding of `self.content_templates.get(category, self.content_templates["seo"])`:
`categorizeKeyword` only produces the three present keys, so the default also
resolves to the seo list. -/
def contentTemplatesFor (c : PyStr) : List (PyStr → PyStr) :=
  if c = str "marketing" then contentTemplatesMarketing
  else if c = str "technology" then contentTemplatesTechnology
  else contentTemplatesSeo

/-- The outline dict built by `SEOEngine._generate_content_outline`. -/
structure OutlineSEO where
  title : PyStr
  description : PyStr
  sections : List PyStr
  estimatedWordCount : Nat
deriving DecidableEq

/-- Embedding of `SEOEngine._generate_content_outline`; `tidx` models the `random.choice`
over the three templates (choice of list element = index modulo the length 3),
`wc` the `random.randint(1500, 3000)` call. -/
def generateContentOutlineSEO (k : PyStr) (tidx wc : Nat) : OutlineSEO :=
  let templates := contentTemplatesFor (categorizeKeyword k)
  let template := templates.getD (tidx % 3) (fun _ => [])
  { title := str "Complete Guide to " ++ pyTitle k ++ str " - Expert Tips & Strategies",
    description := template k,
    sections :=
      [str "What is " ++ k ++ str "?",
       str "Benefits of " ++ k,
       str "Best Practices for " ++ k,
       str "Common Mistakes to Avoid",
       str "Advanced " ++ k ++ str " Strategies",
       str "Tools and Resources",
       str "Case Studies and Examples",
       str "Future Trends in " ++ k],
    estimatedWordCount := wc }

/-- One hex digit as produced by `json.dumps` unicode escapes (lowercase). -/
def hexDigit (n : Nat) : Nat := if n < 10 then 48 + n else 87 + n

/-- A `\uXXXX` escape for one code point below 0x10000. -/
def uEscape (n : Nat) : List Nat :=
  [92, 117, hexDigit (n / 4096 % 16), hexDigit (n / 256 % 16),
   hexDigit (n / 16 % 16), hexDigit (n % 16)]

/-- Embedding of `json.dumps` escaping of one code point (default `ensure_ascii=True`;
code points above 0xFFFF, which need surrogate pairs, do not occur in the
strings this development evaluates). -/
def jsonEscapeChar (n : Nat) : List Nat :=
  if n = 34 then [92, 34]
  else if n = 92 then [92, 92]
  else if n = 10 then [92, 110]
  else if n = 13 then [92, 114]
  else if n = 9 then [92, 116]
  else if n = 8 then [92, 98]
  else if n = 12 then [92, 102]
  else if n < 32 then uEscape n
  else if n > 126 then uEscape n
  else [n]

/-- Embedding of `json.dumps` escaping of a string's content. -/
def jsonEscape (l : PyStr) : PyStr := l.flatMap jsonEscapeChar

/-- A serialized JSON string literal: quote, escaped content, quote. -/
def jstr (s : PyStr) : PyStr := [34] ++ jsonEscape s ++ [34]

/-- Embedding of `", ".join(...)`. -/
def pyJoin (sep : PyStr) (l : List PyStr) : PyStr := List.intercalate sep l

/-- The value of `random.choice(["Article", "HowTo"])` in
`SEOEngine._generate_schema_markup`. -/
inductive SchemaType where
  | Article
  | HowTo
deriving DecidableEq

/-- The part of `json.dumps(schema, indent=2)` shared by both schema templates,
up to the value of the `@type` field. -/
def seoMarkupPre : PyStr :=
  str "\x7b\n  \"@context\": \"https://schema.org\",\n  \"@type\": \""

/-- Output of `json.dumps(schema, indent=2)` for the Article template after
`schema["headline"] = title` and the description assignment. The
`datePublished` and `mainEntityOfPage.@id` placeholders `\x7bdate\x7d` and
`\x7burl\x7d` of the template dict are never substituted by the code and
appear literally in the output. -/
def articleBody (k t : PyStr) : PyStr :=
  str "Article\",\n  \"headline\": " ++ jstr t ++
  str ",\n  \"description\": " ++
  jstr (str "Comprehensive guide to " ++ k ++
    str " with expert insights and actionable strategies.") ++
  str ",\n  \"author\": \x7b\n    \"@type\": \"Organization\",\n    \"name\": \"SEO Content Generator\"\n  \x7d,\n  \"publisher\": \x7b\n    \"@type\": \"Organization\",\n    \"name\": \"SEO Content Generator\"\n  \x7d,\n  \"datePublished\": \"\x7bdate\x7d\",\n  \"mainEntityOfPage\": \x7b\n    \"@type\": \"WebPage\",\n    \"@id\": \"\x7burl\x7d\"\n  \x7d\n\x7d"

/-- Output of `json.dumps(schema, indent=2)` for the HowTo template after
`schema["name"] = title` and the description assignment. The step texts keep
their literal `\x7bkeyword\x7d` placeholders: the template dict is never
`.format`-ed. -/
def howtoBody (k t : PyStr) : PyStr :=
  str "HowTo\",\n  \"name\": " ++ jstr t ++
  str ",\n  \"description\": " ++
  jstr (str "Step-by-step guide to mastering " ++ k ++ str " effectively.") ++
  str ",\n  \"step\": [\n    \x7b\n      \"@type\": \"HowToStep\",\n      \"name\": \"Research and Planning\",\n      \"text\": \"Begin by researching \x7bkeyword\x7d thoroughly and planning your approach.\"\n    \x7d,\n    \x7b\n      \"@type\": \"HowToStep\",\n      \"name\": \"Implementation\",\n      \"text\": \"Implement the strategies and techniques related to \x7bkeyword\x7d.\"\n    \x7d,\n    \x7b\n      \"@type\": \"HowToStep\",\n      \"name\": \"Optimization\",\n      \"text\": \"Continuously optimize and refine your \x7bkeyword\x7d strategies.\"\n    \x7d\n  ]\n\x7d"

/-- Embedding of `SEOEngine._generate_schema_markup`: returns the serialized JSON; `choice`
models the `random.choice(["Article", "HowTo"])` draw. -/
def generateSchemaMarkupSEO (k t : PyStr) (choice : SchemaType) : PyStr :=
  seoMarkupPre ++
  (match choice with
   | .Article => articleBody k t
   | .HowTo => howtoBody k t)

/-- An entity dict as consumed by `FreeAIService` (`ent["text"]`, `ent["label"]`). -/
structure FreeEntity where
  text : PyStr
  label : PyStr
deriving DecidableEq

/-- A keyword dict as consumed by `FreeAIService` (`kw["keyword"]`). -/
structure FreeKeyword where
  keyword : PyStr
deriving DecidableEq

/-- Embedding of `FreeAIService._generate_local_outline`: the deterministic fallback
markdown outline. The grouping of the concatenation exposes the
`## Introduction` segment that references the keyword. -/
def generateLocalOutline (keyword : PyStr) (entities : List FreeEntity)
    (keywords : List FreeKeyword) : PyStr :=
  let entityNames := (entities.take 5).map FreeEntity.text
  let keywordNames := (keywords.take 10).map FreeKeyword.keyword
  (str "# " ++ pyTitle keyword ++ str " - Complete Guide 2025\n\n") ++
  ((str "## Introduction\nOverview of " ++ keyword) ++
   (str " and why it matters in 2025. This comprehensive guide covers everything you need to know about " ++
    keyword ++ str ".\n\n## Key Features and Benefits\n- " ++
    entityNames.getD 0 (str "Feature 1") ++ str ": Essential aspect of " ++ keyword ++
    str "\n- " ++
    entityNames.getD 1 (str "Feature 2") ++ str ": Important consideration for users\n- " ++
    entityNames.getD 2 (str "Feature 3") ++
    str ": Critical factor in decision making\n\n## Top Options and Comparisons\n- " ++
    keywordNames.getD 0 (str "Option 1") ++ str ": Leading choice in the market\n- " ++
    keywordNames.getD 1 (str "Option 2") ++
    str ": Popular alternative with unique benefits\n- " ++
    keywordNames.getD 2 (str "Option 3") ++
    str ": Emerging option worth considering\n\n## Detailed Analysis\n### " ++
    keywordNames.getD 3 (str "Analysis Point 1") ++
    str "\nDeep dive into this important aspect of " ++ keyword ++ str ".\n\n### " ++
    keywordNames.getD 4 (str "Analysis Point 2") ++
    str "\nUnderstanding the implications and benefits.\n\n## Buying Guide and Recommendations\nFactors to consider when choosing " ++
    keyword ++
    str ":\n- Quality and reliability\n- Price and value for money\n- User reviews and ratings\n- Long-term benefits\n\n## Expert Tips and Best Practices\n- Research thoroughly before making a decision\n- Compare multiple options\n- Consider your specific needs\n- Read user reviews and expert opinions\n\n## Conclusion\nSummary of key points and final recommendations for " ++
    keyword ++
    str ". Choose the option that best fits your requirements and budget.\n\n## Additional Resources\n- Related articles and guides\n- Expert recommendations\n- User community discussions\n- Latest updates and trends"))

/-- Outcome of the Hugging Face call in `_generate_with_huggingface`:
either `requests.post`/response handling raised (caught by the inner
`try/except`), or a response arrived with the given status code; `first` is
`some t` when `response.json()` is a non-empty list whose first element's
`.get("generated_text", "")` equals `t` (possibly empty), and `none` when the
body is not a non-empty list. The prompt string sent is not modelled: it does
not influence which of these outcomes the oracle yields. -/
inductive HFRemote where
  | raised (msg : PyStr)
  | response (status : Nat) (first : Option PyStr)

/-- Holds exactly when `_generate_with_huggingface` returns the remote text
instead of falling through to the local outline. -/
def remoteDelivers : HFRemote → Bool
  | .response status first => status == 200 && first.isSome
  | .raised _ => false

/-- Embedding of `FreeAIService._generate_with_huggingface`: on HTTP 200 with a non-empty
list body, return `generated_text[:1000]`; on any other outcome (exception
caught, other status, malformed body) return the local outline. -/
def generateWithHuggingface (k : PyStr) (entities : List FreeEntity)
    (keywords : List FreeKeyword) (r : HFRemote) : PyStr :=
  match r with
  | .raised _ => generateLocalOutline k entities keywords
  | .response status first =>
    if status = 200 then
      match first with
      | some t => t.take 1000
      | none => generateLocalOutline k entities keywords
    else generateLocalOutline k entities keywords

/-- Embedding of `FreeAIService.generate_content_outline`: with a non-empty
`HUGGINGFACE_TOKEN` try the remote tier (whose failures are all caught),
otherwise generate locally. -/
def generateContentOutline (token k : PyStr) (entities : List FreeEntity)
    (keywords : List FreeKeyword) (r : HFRemote) : PyStr :=
  if token = [] then generateLocalOutline k entities keywords
  else generateWithHuggingface k entities keywords r

/-- Embedding of `FreeAIService.generate_schema_markup`, serialized by
`json.dumps(schema, indent=2)`. The `entity_names` list the source computes is
never used in the schema; the `datePublished`/`dateModified` values are the
constants "2025-01-01" (no wall-clock read). -/
def generateSchemaMarkupFree (k : PyStr) (_entities : List FreeEntity)
    (keywords : List FreeKeyword) : PyStr :=
  let keywordNames := (keywords.take 10).map FreeKeyword.keyword
  str "\x7b\n  \"@context\": \"https://schema.org\",\n  \"@type\": \"Article\",\n  \"headline\": " ++
  jstr (str "Best " ++ pyTitle k ++ str " in 2025 - Complete Guide") ++
  str ",\n  \"description\": " ++
  jstr (str "Comprehensive guide to " ++ k ++
    str " options, features, and buying advice for 2025.") ++
  str ",\n  \"keywords\": " ++
  jstr (pyJoin (str ", ") (keywordNames.take 10)) ++
  str ",\n  \"about\": \x7b\n    \"@type\": \"Thing\",\n    \"name\": " ++
  jstr k ++
  str "\n  \x7d,\n  \"mainEntity\": \x7b\n    \"@type\": \"Thing\",\n    \"name\": " ++
  jstr k ++
  str ",\n    \"description\": " ++
  jstr (str "Complete analysis of " ++ k ++ str " options and features") ++
  str "\n  \x7d,\n  \"author\": \x7b\n    \"@type\": \"Organization\",\n    \"name\": \"SEO Content Generator\"\n  \x7d,\n  \"publisher\": \x7b\n    \"@type\": \"Organization\",\n    \"name\": \"SEO Content Generator\"\n  \x7d,\n  \"datePublished\": \"2025-01-01\",\n  \"dateModified\": \"2025-01-01\",\n  \"articleSection\": \"Technology\",\n  \"inLanguage\": \"en-US\"\n\x7d"

/-- Oracle for the `random` calls made during one `run_full_analysis` run;
each field is the value produced by one call site (`strength i` / `freq i` are
the values of the i-th iteration's `randint` in `_analyze_competitors` /
`_generate_tfidf_keywords`). -/
structure RandOracle where
  searchVolume : Nat
  difficulty : Nat
  cpc : ℚ
  templateIdx : Nat
  wordCount : Nat
  schemaChoice : SchemaType
  freq : Nat → Nat
  strength : Nat → Nat

/-- Embedding of `SEOEngine._analyze_keyword` (pure bookkeeping around three random draws;
its result is computed by `run_full_analysis` and then discarded). -/
structure KeywordData where
  keyword : PyStr
  searchVolume : Nat
  difficulty : Nat
  cpc : ℚ
deriving DecidableEq

def analyzeKeyword (k : PyStr) (r : RandOracle) : KeywordData :=
  { keyword := k, searchVolume := r.searchVolume, difficulty := r.difficulty, cpc := r.cpc }

/-- One competitor dict of `_analyze_competitors`. -/
structure Competitor where
  domain : PyVal
  url : PyVal
  title : PyVal
  strength : Nat
deriving DecidableEq

/-- Embedding of `result[key]`: a missing key raises `KeyError`, modelled as `Except.error`. -/
def getKey (key : PyStr) (d : PyDict) : Except PyStr PyVal :=
  match pyLookup key d with
  | some v => .ok v
  | none => .error (str "KeyError")

/-- The competitor-building loop of `_analyze_competitors`; `i` counts the
iterations so that `r.strength i` is that iteration's `random.randint(30, 90)`. -/
def competitorsLoop (r : RandOracle) : Nat → List PyDict → Except PyStr (List Competitor)
  | _, [] => .ok []
  | i, d :: rest =>
    match getKey (str "domain") d with
    | .error m => .error m
    | .ok dm =>
      match getKey (str "url") d with
      | .error m => .error m
      | .ok u =>
        match getKey (str "title") d with
        | .error m => .error m
        | .ok t =>
          match competitorsLoop r (i + 1) rest with
          | .error m => .error m
          | .ok cs => .ok ({ domain := dm, url := u, title := t, strength := r.strength i } :: cs)

/-- The message of Python's ZeroDivisionError. -/
def zeroDivisionMsg : PyStr := str "integer division or modulo by zero"

/-- The summary dict of `_analyze_competitors`. -/
structure CompetitorAnalysis where
  totalCompetitors : Nat
  averageStrength : Nat
  competitors : List Competitor
deriving DecidableEq

/-- Embedding of `SEOEngine._analyze_competitors`: builds the competitor list, then computes
`sum(...) // len(competitors)`; with an empty input list the division raises
`ZeroDivisionError` (Python `//` on non-negative ints is `Nat` division). -/
def analyzeCompetitors (serp : List PyDict) (r : RandOracle) :
    Except PyStr CompetitorAnalysis :=
  match competitorsLoop r 0 serp with
  | .error m => .error m
  | .ok comps =>
    if comps.length = 0 then .error zeroDivisionMsg
    else
      .ok { totalCompetitors := comps.length,
            averageStrength := (comps.map Competitor.strength).sum / comps.length,
            competitors := comps }

/-- The `analysis` sub-dict of a completed result. -/
structure AnalysisPayload where
  entities : List Entity
  tfidfKeywords : List ScoredKeyword
  contentOutline : OutlineSEO
  schemaMarkup : PyStr
deriving DecidableEq

/-- The dict returned by `run_full_analysis`. The two branches of the source
return dicts with different key sets; absent keys are `none`. -/
structure AnalysisResult where
  status : PyStr
  keyword : Option PyStr := none
  analysis : Option AnalysisPayload := none
  serpResults : Option (List PyDict) := none
  competitorAnalysis : Option CompetitorAnalysis := none
  error : Option PyStr := none
deriving DecidableEq

/-- Embedding of `SEOEngine.run_full_analysis`. The `try/except Exception` wrapper is
modelled by `exc`: `some m` stands for a run in which some stage raised an
exception rendering as `m` (the source catches it and returns the
`"error"` dict); `none` is a run in which no stage raised, matched against the
one fallible stage, `_analyze_competitors`, explicitly. -/
def runFullAnalysis (k : PyStr) (r : RandOracle) (exc : Option PyStr) : AnalysisResult :=
  match exc with
  | some m => { status := str "error", error := some m }
  | none =>
    let _kd := analyzeKeyword k r
    let outline := generateContentOutlineSEO k r.templateIdx r.wordCount
    let markup := generateSchemaMarkupSEO k outline.title r.schemaChoice
    let serp := mockSerpResults k
    match analyzeCompetitors serp r with
    | .error m => { status := str "error", error := some m }
    | .ok comp =>
      { status := str "completed",
        keyword := some k,
        analysis := some
          { entities := extractEntities k,
            tfidfKeywords := generateTfidfKeywords k r.freq,
            contentOutline := outline,
            schemaMarkup := markup },
        serpResults := some serp,
        competitorAnalysis := some comp }

/-- The entity band of `calculate_analysis_score` (src/app/utils.py). -/
def entitiesBand (n : Nat) : Nat :=
  if n ≥ 10 then 30 else if n ≥ 5 then 20 else if n ≥ 2 then 10 else 0

/-- The keyword band of `calculate_analysis_score`. -/
def keywordsBand (n : Nat) : Nat :=
  if n ≥ 20 then 30 else if n ≥ 10 then 20 else if n ≥ 5 then 10 else 0

/-- The SERP band of `calculate_analysis_score` (`analysis.get("total_results", 0)`). -/
def serpBand (n : Nat) : Nat :=
  if n ≥ 8 then 20 else if n ≥ 5 then 15 else if n ≥ 2 then 10 else 0

/-- The outline band of `calculate_analysis_score` (`len(analysis.get("content_outline", ""))`). -/
def outlineBand (n : Nat) : Nat :=
  if n > 500 then 20 else if n > 200 then 15 else if n > 50 then 10 else 0

/-- Embedding of `calculate_analysis_score`: the Python function reads its four numbers as
`len(analysis.get("entities", []))`, `len(analysis.get("tfidf_keywords", []))`,
`analysis.get("total_results", 0)` and `len(analysis.get("content_outline", ""))`;
they are passed here explicitly. -/
def calculateAnalysisScore (entitiesCount keywordsCount serpCount outlineLen : Nat) : Nat :=
  min (entitiesBand entitiesCount + keywordsBand keywordsCount +
       serpBand serpCount + outlineBand outlineLen) 100

/-- A fixed oracle value used for concrete evaluations. -/
def oracle0 : RandOracle :=
  { searchVolume := 1000, difficulty := 20, cpc := 1, templateIdx := 0,
    wordCount := 1500, schemaChoice := .Article,
    freq := fun _ => 5, strength := fun _ => 30 }

/-- Decidable checker used to state claim C2: the record has `title` and
`snippet` string fields and both contain the (lowercased) keyword
case-insensitively. -/
def serpRecordReferences (kLower : PyStr) (d : PyDict) : Bool :=
  match pyLookup (str "title") d, pyLookup (str "snippet") d with
  | some (.pstr t), some (.pstr s) =>
    pyContains kLower (pyLowerS t) && pyContains kLower (pyLowerS s)
  | _, _ => false

/-!  ## Theorems  -/

theorem asciiLower_titleChar (prev : Bool) (c : Nat) :
    asciiLower (if isAlphaNat c then (if prev then asciiLower c else asciiUpper c) else c) =
      asciiLower c := by
  simp only [asciiLower, asciiUpper, isAlphaNat]
  rcases prev <;> split_ifs <;> simp_all <;> omega

theorem pyLowerS_pyTitleAux (prev : Bool) (l : PyStr) :
    pyLowerS (pyTitleAux prev l) = pyLowerS l := by
  induction l generalizing prev with
  | nil => rfl
  | cons c cs ih =>
    simp only [pyTitleAux, pyLowerS, List.map_cons] at *
    rw [asciiLower_titleChar prev c]
    exact congrArg _ (ih _)

theorem pyLowerS_pyTitle (l : PyStr) : pyLowerS (pyTitle l) = pyLowerS l :=
  pyLowerS_pyTitleAux false l

theorem isPrefixOf_append_self (l t : List Nat) : l.isPrefixOf (l ++ t) = true := by
  induction l with
  | nil => simp [List.isPrefixOf]
  | cons c cs ih => simp [List.isPrefixOf, ih]

theorem pyContains_append_middle (a m b : PyStr) : pyContains m (a ++ (m ++ b)) = true := by
  unfold pyContains
  rw [List.any_eq_true]
  refine ⟨a.length, List.mem_range.2 ?_, ?_⟩
  · simp [List.length_append]; omega
  · rw [List.drop_left]
    exact isPrefixOf_append_self m b

theorem pyContains_left (m b : PyStr) : pyContains m (m ++ b) = true := by
  have h := pyContains_append_middle [] m b
  simpa using h




theorem entitiesBand_mono {a b : Nat} (h : a ≤ b) : entitiesBand a ≤ entitiesBand b := by
  unfold entitiesBand; split_ifs <;> omega

theorem keywordsBand_mono {a b : Nat} (h : a ≤ b) : keywordsBand a ≤ keywordsBand b := by
  unfold keywordsBand; split_ifs <;> omega

theorem serpBand_mono {a b : Nat} (h : a ≤ b) : serpBand a ≤ serpBand b := by
  unfold serpBand; split_ifs <;> omega

theorem outlineBand_mono {a b : Nat} (h : a ≤ b) : outlineBand a ≤ outlineBand b := by
  unfold outlineBand; split_ifs <;> omega

/-- Claim C6: `calculate_analysis_score` always returns an integer in [0, 100]
(it returns a `Nat`, so 0 ≤ score is the type) and is monotone non-decreasing in
each of its four inputs: entity count, scored-keyword count, SERP result count
and rendered-outline length. Joint monotonicity in all four at once is stated,
which contains monotonicity in each input separately (fix the other three). -/
theorem calculateAnalysisScore_monotone_bounded
    (e k s o e2 k2 s2 o2 : Nat) (he : e ≤ e2) (hk : k ≤ k2) (hs : s ≤ s2) (ho : o ≤ o2) :
    calculateAnalysisScore e k s o ≤ calculateAnalysisScore e2 k2 s2 o2 ∧
    calculateAnalysisScore e k s o ≤ 100 := by
  constructor
  · unfold calculateAnalysisScore
    exact min_le_min
      (Nat.add_le_add (Nat.add_le_add (Nat.add_le_add
        (entitiesBand_mono he) (keywordsBand_mono hk)) (serpBand_mono hs))
        (outlineBand_mono ho))
      (le_refl 100)
  · exact Nat.min_le_right _ _

theorem calculateAnalysisScore_monotone_bounded_witness :
    calculateAnalysisScore 2 5 5 300 ≤ calculateAnalysisScore 10 20 8 600 ∧
    calculateAnalysisScore 2 5 5 300 ≤ 100 :=
  calculateAnalysisScore_monotone_bounded 2 5 5 300 10 20 8 600
    (by decide) (by decide) (by decide) (by decide)

/-- Claim C3: the scored-keyword list of `_generate_tfidf_keywords` has scores
(in hundredths of the Python floats) exactly `100 - 10*rank`, i.e.
`1.0 - 0.1*rank`, hence strictly decreasing and sorted non-increasing, and its
terms contain no duplicates. -/
theorem tfidfKeywords_scores_sorted_terms_nodup (k : PyStr) (f : Nat → Nat) :
    (generateTfidfKeywords k f).map ScoredKeyword.score =
      [100, 90, 80, 70, 60, 50, 40, 30] ∧
    List.Pairwise (fun a b : Int => a > b)
      ((generateTfidfKeywords k f).map ScoredKeyword.score) ∧
    ((generateTfidfKeywords k f).map ScoredKeyword.term).Nodup := by
  have hscore : (generateTfidfKeywords k f).map ScoredKeyword.score =
      [100, 90, 80, 70, 60, 50, 40, 30] := by
    simp [generateTfidfKeywords, relatedTerms, tfidfLoop]
  refine ⟨hscore, by rw [hscore]; decide, ?_⟩
  have hterm : (generateTfidfKeywords k f).map ScoredKeyword.term =
      [[], str " guide", str " tips", str " strategies", str " best practices",
       str " examples", str " tools", str " case study"].map (fun s => k ++ s) := by
    simp [generateTfidfKeywords, relatedTerms, tfidfLoop]
  rw [hterm]
  exact List.Nodup.map (fun a b hab => List.append_cancel_left hab) (by decide)

theorem analyzeCompetitors_mock_ok (k : PyStr) (r : RandOracle) :
    ∃ c, analyzeCompetitors (mockSerpResults k) r = Except.ok c := ⟨_, rfl⟩

/-- Claim C10: the SERP stage always supplies exactly 5 records, so the
division by `len(competitors)` inside `_analyze_competitors` never divides by
zero when reached from `run_full_analysis` (the call succeeds); applied to an
empty record list the same function raises `ZeroDivisionError`. -/
theorem analyzeCompetitors_no_div_by_zero (k : PyStr) (r : RandOracle) :
    (mockSerpResults k).length = 5 ∧
    (∃ c, analyzeCompetitors (mockSerpResults k) r = Except.ok c) ∧
    analyzeCompetitors [] r = Except.error zeroDivisionMsg :=
  ⟨by simp [mockSerpResults], analyzeCompetitors_mock_ok k r, rfl⟩

/-- Claim C1 counterexample: when a stage raises (here rendered as message
"boom"), `run_full_analysis` returns status `"error"` — not `"failed"` — so
the claimed status set \x7bcompleted, failed\x7d is wrong. -/
theorem runFullAnalysis_failed_status_cex :
    (runFullAnalysis (str "seo") oracle0 (some (str "boom"))).status ≠ str "completed" ∧
    (runFullAnalysis (str "seo") oracle0 (some (str "boom"))).status ≠ str "failed" ∧
    (runFullAnalysis (str "seo") oracle0 (some (str "boom"))).status = str "error" := by
  refine ⟨by decide, by decide, by decide⟩

/-- Claim C1 (amended): for every keyword, oracle and exception outcome,
`run_full_analysis` returns normally with status `"completed"` (and no error
field) or status `"error"` together with the exception's message as the error
string; no other status value reaches the caller. -/
theorem runFullAnalysis_completed_or_error (k : PyStr) (r : RandOracle)
    (exc : Option PyStr) :
    ((runFullAnalysis k r exc).status = str "completed" ∧
      (runFullAnalysis k r exc).error = none) ∨
    ((runFullAnalysis k r exc).status = str "error" ∧
      (runFullAnalysis k r exc).error ≠ none) := by
  cases exc with
  | some m =>
    right
    exact ⟨rfl, by simp [runFullAnalysis]⟩
  | none =>
    obtain ⟨c, hc⟩ := analyzeCompetitors_mock_ok k r
    left
    constructor
    · simp [runFullAnalysis, hc]
    · simp [runFullAnalysis, hc]

/-- Claim C9 counterexample: the pipeline does not guard against the empty
keyword — `run_full_analysis("")` returns a completed result, not a failed one. -/
theorem runFullAnalysis_empty_keyword_cex :
    (runFullAnalysis (str "") oracle0 none).status = str "completed" := by decide

/-- Claim C9 (amended): the pipeline itself accepts a whitespace-only (in
particular empty) keyword and completes; rejection of such keywords happens in
the caller via `validate_keyword`, which returns False for them. -/
theorem emptyKeyword_completes_validation_rejects (k : PyStr) (r : RandOracle)
    (h : pyStrip k = []) :
    validateKeyword k = false ∧ (runFullAnalysis k r none).status = str "completed" := by
  constructor
  · unfold validateKeyword
    rw [h]
    simp
  · obtain ⟨c, hc⟩ := analyzeCompetitors_mock_ok k r
    simp [runFullAnalysis, hc]

theorem emptyKeyword_completes_validation_rejects_witness :
    validateKeyword (str " ") = false ∧
    (runFullAnalysis (str " ") oracle0 none).status = str "completed" :=
  emptyKeyword_completes_validation_rejects (str " ") oracle0 (by decide)

/-- Claim C4 counterexample: a successful remote response (HTTP 200, non-empty
list body) whose `generated_text` is the empty string makes
`generate_content_outline` return an empty outline. -/
theorem generateContentOutline_empty_cex :
    generateContentOutline (str "tok") (str "seo") [] []
      (.response 200 (some [])) = ([] : PyStr) := rfl

/-- Claim C4 (amended): every non-success outcome of the remote tier
(exception caught, non-200 status, malformed body) falls through to the local
fallback without propagating; the fallback outline is never empty and its
Introduction section references the keyword. A successful remote response is
returned as `generated_text[:1000]`, which may be empty. -/
theorem generateContentOutline_fallback_nonempty (token k : PyStr)
    (entities : List FreeEntity) (keywords : List FreeKeyword) (r : HFRemote)
    (h : remoteDelivers r = false) :
    generateContentOutline token k entities keywords r =
      generateLocalOutline k entities keywords ∧
    generateLocalOutline k entities keywords ≠ [] ∧
    pyContains (str "## Introduction\nOverview of " ++ k)
      (generateLocalOutline k entities keywords) = true := by
  refine ⟨?_, ?_, ?_⟩
  · unfold generateContentOutline generateWithHuggingface
    by_cases ht : token = []
    · simp [ht]
    · simp only [ht, if_false]
      cases r with
      | raised m => rfl
      | response status first =>
        simp only [remoteDelivers, Bool.and_eq_false_iff] at h
        by_cases hs : status = 200
        · subst hs
          rcases first with _ | t
          · simp
          · simp at h
        · simp [hs]
  · intro h0
    have hlen := congrArg List.length h0
    simp only [generateLocalOutline, List.length_append, List.length_nil] at hlen
    have h2 : (str "# ").length = 2 := rfl
    omega
  · exact pyContains_append_middle _ _ _

theorem generateContentOutline_fallback_nonempty_witness :
    generateContentOutline (str "") (str "seo") [] [] (.raised (str "timeout")) =
      generateLocalOutline (str "seo") [] [] ∧
    generateLocalOutline (str "seo") [] [] ≠ [] ∧
    pyContains (str "## Introduction\nOverview of " ++ str "seo")
      (generateLocalOutline (str "seo") [] []) = true :=
  generateContentOutline_fallback_nonempty (str "") (str "seo") [] []
    (.raised (str "timeout")) rfl

/-- Claim C5 counterexample: with identical inputs (keyword "seo", the same
title), the two values of the `random.choice(["Article", "HowTo"])` draw in
`SEOEngine._generate_schema_markup` yield different serialized outputs, so the
serialized markup is not a function of the inputs alone. -/
theorem schemaMarkupSEO_random_cex :
    generateSchemaMarkupSEO (str "seo") (str "Complete Guide") .Article ≠
    generateSchemaMarkupSEO (str "seo") (str "Complete Guide") .HowTo := by decide

/-- Claim C5 (amended): `FreeAIService.generate_schema_markup` is
deterministic — its serialized output depends only on the keyword and the
scored keywords' name strings (the entity list is ignored, and the embedded
dates are the constants "2025-01-01", not wall-clock reads) — whereas
`SEOEngine._generate_schema_markup` depends on the random Article/HowTo draw:
for every keyword and title the two draws produce different serialized bytes. -/
theorem schemaMarkupFree_deterministic (k t : PyStr)
    (e e2 : List FreeEntity) (kws kws2 : List FreeKeyword)
    (h : kws.map FreeKeyword.keyword = kws2.map FreeKeyword.keyword) :
    generateSchemaMarkupFree k e kws = generateSchemaMarkupFree k e2 kws2 ∧
    generateSchemaMarkupSEO k t .Article ≠ generateSchemaMarkupSEO k t .HowTo := by
  constructor
  · simp only [generateSchemaMarkupFree, List.map_take]
    rw [h]
  · intro hEq
    have h2 : articleBody k t = howtoBody k t := List.append_cancel_left hEq
    have hA : (articleBody k t).head? = some 65 := rfl
    rw [h2] at hA
    have hH : (howtoBody k t).head? = some 72 := rfl
    rw [hH] at hA
    simp at hA

theorem schemaMarkupFree_deterministic_witness :
    generateSchemaMarkupFree (str "seo") [] [⟨str "seo tips"⟩] =
      generateSchemaMarkupFree (str "seo") [⟨str "x", str "CONCEPT"⟩] [⟨str "seo tips"⟩] ∧
    generateSchemaMarkupSEO (str "seo") (str "T") .Article ≠
      generateSchemaMarkupSEO (str "seo") (str "T") .HowTo :=
  schemaMarkupFree_deterministic (str "seo") (str "T") [] [⟨str "x", str "CONCEPT"⟩]
    [⟨str "seo tips"⟩] [⟨str "seo tips"⟩] rfl

theorem pyLowerS_append (a b : PyStr) : pyLowerS (a ++ b) = pyLowerS a ++ pyLowerS b :=
  List.map_append asciiLower a b

/-- Claim C2 counterexample: no record of the synthetic SERP provider has an
`h1` field at all, so the claimed keyword reference in `h1` fails. -/
theorem mockSerp_no_h1_cex :
    ((mockSerpResults (str "seo")).all fun d => (pyLookup (str "h1") d).isSome) = false := by
  decide

/-- Claim C2 (amended): for every valid keyword the synthetic SERP provider
returns exactly 5 records (there is no count parameter; 5 lies in the claimed
default range), each record's `title` and `snippet` reference the keyword
case-insensitively, and no record carries an `h1` field. The function calls no
randomness source, so it is deterministic in the keyword by construction. -/
theorem mockSerp_count_and_references (k : PyStr) (_h : validateKeyword k = true) :
    (mockSerpResults k).length = 5 ∧
    ((mockSerpResults k).all fun d => (pyLookup (str "h1") d).isNone) = true ∧
    ((mockSerpResults k).all fun d => serpRecordReferences (pyLowerS k) d) = true := by
  refine ⟨by simp [mockSerpResults], ?_, ?_⟩
  · rw [List.all_eq_true]
    intro d hd
    obtain ⟨i, -, rfl⟩ := List.mem_map.1 hd
    rfl
  · rw [List.all_eq_true]
    intro d hd
    obtain ⟨i, -, rfl⟩ := List.mem_map.1 hd
    show (pyContains (pyLowerS k)
        (pyLowerS (pyTitle k ++ (str " - Complete Guide " ++ natStr (i + 1)))) &&
      pyContains (pyLowerS k)
        (pyLowerS (str "Learn everything about " ++ (k ++
          str " with our comprehensive guide. Expert tips, strategies, and best practices for success.")))) = true
    rw [Bool.and_eq_true]
    constructor
    · rw [pyLowerS_append, pyLowerS_pyTitle]
      exact pyContains_left _ _
    · rw [pyLowerS_append, pyLowerS_append]
      exact pyContains_append_middle _ _ _

theorem mockSerp_count_and_references_witness :
    (mockSerpResults (str "seo")).length = 5 ∧
    ((mockSerpResults (str "seo")).all fun d => (pyLookup (str "h1") d).isNone) = true ∧
    ((mockSerpResults (str "seo")).all fun d =>
      serpRecordReferences (pyLowerS (str "seo")) d) = true :=
  mockSerp_count_and_references (str "seo") (by decide)

/-- Claim C7 counterexample: the extractor output is not set-like — the valid
keyword "content content" yields two identical TERM entries — and it is not
ordered by first occurrence: for "SEO tips" the CONCEPT entity "SEO"
(occurring at offset 0 of the input) is listed after the TERM "tips"
(offset 4), because CONCEPT entities are always appended last. -/
theorem extractEntities_duplicates_cex :
    ¬ (extractEntities (str "content content")).Nodup ∧
    extractEntities (str "SEO tips") =
      [{ text := str "SEO tips", type := str "KEYWORD", relevance := 100 },
       { text := str "tips", type := str "TERM", relevance := 80 },
       { text := str "SEO", type := str "CONCEPT", relevance := 90 }] :=
  ⟨by decide, by decide⟩

/-- Claim C7 (amended): for every valid keyword, no entity produced by
`_extract_entities` has empty text. (The output may contain duplicate entries
when the keyword repeats a token, and is grouped KEYWORD, then TERMs in token
order, then CONCEPTs in vocabulary order rather than by first occurrence.) -/
theorem extractEntities_nonempty_text (k : PyStr) (h : validateKeyword k = true) :
    ((extractEntities k).all fun e => !(e.text.isEmpty)) = true := by
  rw [List.all_eq_true]
  intro e he
  have hne : e.text ≠ [] := by
    rcases List.mem_append.1 he with h12 | h3
    · rcases List.mem_append.1 h12 with h1 | h2
      · have hk : k ≠ [] := by
          intro hk0
          rw [hk0] at h
          exact absurd h (by decide)
        simp only [List.mem_singleton] at h1
        subst h1
        exact hk
      · obtain ⟨w, hw, rfl⟩ := List.mem_map.1 h2
        have hlen := (List.mem_filter.1 hw).2
        simp only [decide_eq_true_eq] at hlen
        intro hw0
        have hw1 : w = [] := hw0
        rw [hw1] at hlen
        simp at hlen
    · obtain ⟨t, ht, rfl⟩ := List.mem_map.1 h3
      have ht5 := (List.mem_filter.1 ht).1
      simp only [seoTerms, List.mem_cons, List.not_mem_nil, or_false] at ht5
      rcases ht5 with rfl | rfl | rfl | rfl | rfl <;> decide
  revert hne
  cases e.text <;> simp

theorem extractEntities_nonempty_text_witness :
    ((extractEntities (str "seo content")).all fun e => !(e.text.isEmpty)) = true :=
  extractEntities_nonempty_text (str "seo content") (by decide)

/-- Claim C8: complete characterization of the extractor output — an entity is
returned iff it is the whole keyword as a KEYWORD entity (relevance 1.0), a
whitespace-separated token of length > 3 as a TERM entity (relevance 0.8), or
a fixed-vocabulary term occurring case-insensitively in the keyword as a
CONCEPT entity (relevance 0.9); relevances in hundredths. -/
theorem extractEntities_characterization (k : PyStr) (e : Entity) :
    e ∈ extractEntities k ↔
      (e = { text := k, type := str "KEYWORD", relevance := 100 } ∨
       (∃ w, w ∈ pySplit k ∧ w.length > 3 ∧
          e = { text := w, type := str "TERM", relevance := 80 }) ∨
       (∃ t, t ∈ seoTerms ∧ pyContains (pyLowerS t) (pyLowerS k) = true ∧
          e = { text := t, type := str "CONCEPT", relevance := 90 })) := by
  simp only [extractEntities, List.mem_append, List.mem_singleton, List.mem_map,
    List.mem_filter, decide_eq_true_eq]
  constructor
  · rintro ((rfl | ⟨w, ⟨hw, hlen⟩, rfl⟩) | ⟨t, ⟨ht, hc⟩, rfl⟩)
    · exact Or.inl rfl
    · exact Or.inr (Or.inl ⟨w, hw, hlen, rfl⟩)
    · exact Or.inr (Or.inr ⟨t, ht, hc, rfl⟩)
  · rintro (rfl | ⟨w, hw, hlen, rfl⟩ | ⟨t, ht, hc, rfl⟩)
    · exact Or.inl (Or.inl rfl)
    · exact Or.inl (Or.inr ⟨w, ⟨hw, hlen⟩, rfl⟩)
    · exact Or.inr ⟨t, ⟨ht, hc⟩, rfl⟩
